import Mathlib

/-!
Shallow embedding of `sys/v4l2/gstv4l2devicemonitor.c` (V4L2 device probing
and monitoring).  Pure data and control flow of the C source are translated to
Lean functions; the operating-system collaborators (stat/open/ioctl on device
nodes, the udev client) are modelled as explicit inputs.  A `g_assert` /
`g_assert_not_reached` abort is represented by `Except.error ()`.
-/

/-- Classification of a discovered V4L2 device (`GstV4l2DeviceType`). -/
inductive GstV4l2DeviceType
  | invalid
  | source
  | sink
deriving DecidableEq, Repr

/-- Buffer type currently targeted by a `GstV4l2Object` handle
(`V4L2_BUF_TYPE_VIDEO_CAPTURE` / `V4L2_BUF_TYPE_VIDEO_OUTPUT`). -/
inductive V4l2BufType
  | videoCapture
  | videoOutput
deriving DecidableEq, Repr

/-- Result of `VIDIOC_QUERYCAP` on an opened node (the `vcap` field of
`GstV4l2Object`): the two capability flags the monitor inspects and the
hardware-reported card name. -/
structure V4l2Capability where
  capCapture : Bool
  capOutput : Bool
  card : String
deriving DecidableEq, Repr

/-- One node of the modelled device namespace: whether `stat` reports a
character-special file, whether `gst_v4l2_open` succeeds, the queried
capability record, and the caps descriptor `gst_v4l2_object_get_caps` returns
for each buffer type (`none` models a NULL `GstCaps`, `some []` an empty
one). -/
structure DeviceNode where
  isChr : Bool
  openOk : Bool
  vcap : V4l2Capability
  getCaps : V4l2BufType → Option (List String)

/-- The device namespace: `stat` on a path either fails (`none`) or yields a
node. -/
def World : Type := String → Option DeviceNode

/-- A published device record (`GstV4l2Device`): node path, display name,
caps, klass string, classification, element factory name, and the optional
sysfs path identifier (set only on the hotplug discovery path). -/
structure GstV4l2Device where
  device_path : String
  display_name : String
  caps : List String
  klass : String
  type : GstV4l2DeviceType
  element : String
  syspath : Option String
deriving DecidableEq, Repr

/-- Constructor `gst_v4l2_device_new`: picks the element factory and klass
from the classification; the `default` switch arm is `g_assert_not_reached`,
modelled as `Except.error ()`. -/
def gst_v4l2_device_new (device_path device_name : String) (caps : List String)
    (type : GstV4l2DeviceType) : Except Unit GstV4l2Device :=
  match type with
  | .source => .ok ⟨device_path, device_name, caps, "Video/Source", .source, "v4l2src", none⟩
  | .sink => .ok ⟨device_path, device_name, caps, "Video/Sink", .sink, "v4l2sink", none⟩
  | .invalid => .error ()

/-- Resource events emitted while probing one node: object creation and
destruction, device open and close, caps acquisition (non-NULL return of
`gst_v4l2_object_get_caps`) and release (`gst_caps_unref`). -/
inductive ProbeEvent
  | objNew
  | objDestroy
  | openDev
  | closeDev
  | capsRef
  | capsUnref
deriving DecidableEq, Repr

/-- Outcome of one probe: the returned record (`Except.error ()` when
`gst_v4l2_device_new` would abort) together with the resource events in
program order. -/
structure ProbeOut where
  result : Except Unit (Option GstV4l2Device)
  events : List ProbeEvent
deriving Repr

/-- Embedding of `gst_v4l2_device_monitor_probe_device`: stat check,
character-special check, open, capability flags (combo capture+output nodes
are dropped via `goto close`), morphing the buffer type to output for
sink-only nodes, caps query, and record construction, with the `close` /
`destroy` labels reflected in the emitted event list. -/
def gst_v4l2_device_monitor_probe_device (w : World) (device_path : String)
    (device_name : Option String) : ProbeOut :=
  match w device_path with
  | none => ⟨.ok none, []⟩
  | some st =>
    if st.isChr = false then ⟨.ok none, []⟩
    else if st.openOk = false then
      ⟨.ok none, [.objNew, .objDestroy]⟩
    else if st.vcap.capCapture && st.vcap.capOutput then
      ⟨.ok none, [.objNew, .openDev, .closeDev, .objDestroy]⟩
    else
      let bufType : V4l2BufType :=
        if st.vcap.capOutput then .videoOutput else .videoCapture
      let type : GstV4l2DeviceType :=
        if st.vcap.capOutput then .sink
        else if st.vcap.capCapture then .source
        else .invalid
      match st.getCaps bufType with
      | none => ⟨.ok none, [.objNew, .openDev, .closeDev, .objDestroy]⟩
      | some caps =>
        if caps.isEmpty then
          ⟨.ok none, [.objNew, .openDev, .capsRef, .capsUnref, .closeDev, .objDestroy]⟩
        else
          match gst_v4l2_device_new device_path
              (match device_name with | some n => n | none => st.vcap.card)
              caps type with
          | .error e => ⟨.error e, [.objNew, .openDev, .capsRef]⟩
          | .ok d =>
            ⟨.ok (some d), [.objNew, .openDev, .capsRef, .capsUnref, .closeDev, .objDestroy]⟩

/-- The two device-node naming schemes scanned by the static enumerator. -/
def dev_base : List String := ["/dev/video", "/dev/v4l2/video"]

/-- The candidate paths probed by `gst_v4l2_device_monitor_probe`, in the
order of its nested loops: indices `0 ≤ n < 64`, both bases for each index. -/
def probe_candidates : List String :=
  (List.range 64).flatMap (fun n => dev_base.map (fun b => b ++ toString n))

/-- Loop body of the static enumerator: probe each candidate, prepend each
found record; a probe abort propagates. -/
def probe_loop (w : World) : List String → List GstV4l2Device →
    Except Unit (List GstV4l2Device)
  | [], devices => .ok devices
  | dev :: rest, devices =>
    match (gst_v4l2_device_monitor_probe_device w dev none).result with
    | .error e => .error e
    | .ok none => probe_loop w rest devices
    | .ok (some d) => probe_loop w rest (d :: devices)

/-- Embedding of `gst_v4l2_device_monitor_probe`: scan both naming schemes
for indices 0–63, collecting (by prepending) every record produced. -/
def gst_v4l2_device_monitor_probe (w : World) : Except Unit (List GstV4l2Device) :=
  probe_loop w probe_candidates []

/-- A udev device descriptor as consumed by the monitor: the device node
file, the sysfs path, the integer `ID_V4L_VERSION` property
(`g_udev_device_get_property_as_int` yields 0 when absent) and the three
display-name hint properties, in fallback order. -/
structure GUdevDevice where
  device_file : String
  sysfs_path : String
  id_v4l_version : Int
  id_v4l_product : Option String
  id_model_enc : Option String
  id_model : Option String
deriving DecidableEq, Repr

/-- Embedding of `gst_v4l2_device_monitor_device_from_udev`: resolve the
display-name hint (`ID_V4L_PRODUCT`, else `ID_MODEL_ENC`, else `ID_MODEL`),
probe the node file, and on success store the sysfs path into the record. -/
def gst_v4l2_device_monitor_device_from_udev (w : World) (udev : GUdevDevice) :
    Except Unit (Option GstV4l2Device) :=
  let device_name : Option String :=
    match udev.id_v4l_product with
    | some n => some n
    | none =>
      match udev.id_model_enc with
      | some n => some n
      | none => udev.id_model
  match (gst_v4l2_device_monitor_probe_device w udev.device_file device_name).result with
  | .error e => .error e
  | .ok none => .ok none
  | .ok (some d) => .ok (some { d with syspath := some udev.sysfs_path })

/-- Modelled from the spec: `gst_device_monitor_device_add` (GStreamer core
base class, not under src/) publishes a newly discovered record by adding it
to the live registry of the monitor and issuing the add notification. -/
def gst_device_monitor_device_add (regs : List GstV4l2Device)
    (d : GstV4l2Device) : List GstV4l2Device :=
  regs ++ [d]

/-- Modelled from the spec: `gst_device_monitor_device_remove` (GStreamer
core base class, not under src/) retracts a record, removing its first
occurrence from the live registry and issuing the remove notification. -/
def gst_device_monitor_device_remove (regs : List GstV4l2Device)
    (d : GstV4l2Device) : List GstV4l2Device :=
  regs.erase d

/-- Observable events of the hotplug callback: taking and releasing the
object lock of the monitor and issuing add/remove notifications or the
unhandled-action warning. -/
inductive MonEvent
  | lock
  | unlock
  | notifyAdd (d : GstV4l2Device)
  | notifyRemove (d : GstV4l2Device)
  | warnUnhandled (a : String)
deriving DecidableEq, Repr

/-- The linear scan of the remove branch of `uevent_cb`: walk the registry,
`strcmp` the `syspath` of each record against the sysfs path of the event,
stop at the
first match.  A record whose `syspath` is NULL makes `strcmp` dereference
NULL, modelled as `Except.error ()`. -/
def remove_scan (sys : String) : List GstV4l2Device →
    Except Unit (Option GstV4l2Device)
  | [] => .ok none
  | d :: rest =>
    match d.syspath with
    | none => .error ()
    | some s => if s = sys then .ok (some d) else remove_scan sys rest

/-- Embedding of `uevent_cb`: drop events whose `ID_V4L_VERSION` is not 2;
on "add" probe via the udev path and publish any record produced; on
"remove" scan the registry under the lock, unlock, then retract the first
match if any; log unknown actions.  Returns the new registry and the
observable events in program order. -/
def uevent_cb (w : World) (action : String) (udev : GUdevDevice)
    (regs : List GstV4l2Device) : Except Unit (List GstV4l2Device × List MonEvent) :=
  if udev.id_v4l_version ≠ 2 then .ok (regs, [])
  else if action = "add" then
    match gst_v4l2_device_monitor_device_from_udev w udev with
    | .error e => .error e
    | .ok none => .ok (regs, [])
    | .ok (some d) => .ok (gst_device_monitor_device_add regs d, [.notifyAdd d])
  else if action = "remove" then
    match remove_scan udev.sysfs_path regs with
    | .error e => .error e
    | .ok none => .ok (regs, [.lock, .unlock])
    | .ok (some d) =>
      .ok (gst_device_monitor_device_remove regs d, [.lock, .unlock, .notifyRemove d])
  else .ok (regs, [.warnUnhandled action])

/-- One iteration of the initial enumeration loop of `monitor_thread`:
process a device returned by `g_udev_client_query_by_subsystem`, publishing
a record only when `ID_V4L_VERSION` equals 2 and the probe succeeds. -/
def process_udev (w : World) (u : GUdevDevice) (regs : List GstV4l2Device) :
    Except Unit (List GstV4l2Device) :=
  if u.id_v4l_version = 2 then
    match gst_v4l2_device_monitor_device_from_udev w u with
    | .error e => .error e
    | .ok none => .ok regs
    | .ok (some d) => .ok (gst_device_monitor_device_add regs d)
  else .ok regs

/-- The full initial enumeration pass of `monitor_thread`: fold
`process_udev` over the devices reported by the udev subsystem query. -/
def monitor_thread_scan (w : World) : List GUdevDevice → List GstV4l2Device →
    Except Unit (List GstV4l2Device)
  | [], regs => .ok regs
  | u :: rest, regs =>
    match process_udev w u regs with
    | .error e => .error e
    | .ok regs2 => monitor_thread_scan w rest regs2

/-- Observable monitor state (`GstV4l2DeviceMonitor` plus the base-class
registry): presence of the background context, loop, and thread handles, the
started flag, and the live registry. -/
structure MonitorState where
  context : Bool
  loop : Bool
  thread : Bool
  started : Bool
  devices : List GstV4l2Device
deriving DecidableEq, Repr

/-- A freshly constructed, never-started monitor: no context, no loop, no
thread, started flag false, empty registry. -/
def fresh_monitor : MonitorState :=
  ⟨false, false, false, false, []⟩

/-- Sequential model of `gst_v4l2_device_monitor_start` run to completion:
the `g_assert (self->context == NULL)` on an already-started monitor and a
probe abort inside the scan are `none`; otherwise the caller has blocked on
`started_cond` until the background thread finished the initial enumeration
pass, so the returned state has all handles present, the started flag set,
and the registry populated by that pass. -/
def gst_v4l2_device_monitor_start (w : World) (udevs : List GUdevDevice)
    (s : MonitorState) : Option MonitorState :=
  if s.context = true then none
  else
    match monitor_thread_scan w udevs s.devices with
    | .error _ => none
    | .ok regs => some ⟨true, true, true, true, regs⟩

/-- Embedding of `gst_v4l2_device_monitor_stop` composed with the base-class
teardown: detach context and loop unconditionally; when both were present,
schedule the quit, join and clear the thread, and clear the started flag.
Modelled from the spec: the draining of the live registry ("drained/released
on stop()") happens in the GStreamer core base class, which is not under
src/. -/
def gst_v4l2_device_monitor_stop (s : MonitorState) : MonitorState :=
  if s.context = false ∨ s.loop = false then
    { s with context := false, loop := false }
  else
    ⟨false, false, false, false, []⟩

/-!
Interleaving model of the `start()` handshake: the calling thread runs
`gst_v4l2_device_monitor_start` while the background thread runs
`monitor_thread`.  Locked regions of the C code are atomic steps; the
condition-variable wait is the guard that the caller can only proceed past
`waiting` once the started flag is true.
-/

/-- Program counter of the caller inside `gst_v4l2_device_monitor_start`. -/
inductive CallerPC
  | inStart
  | waiting
  | returned
deriving DecidableEq, Repr

/-- Program counter of the background `monitor_thread`: checking the
context/loop handles, enumerating the i-th queried udev device, running the
main loop after signalling started, the early exit when the context or loop
was already detached, or death by a probe abort. -/
inductive ThreadPC
  | init
  | enum (i : Nat)
  | run
  | doneEarly
  | crashed
deriving DecidableEq, Repr

/-- Environment of one `start()` episode: the device namespace, the udev
subsystem query result, and whether the context and loop handles are still
attached when the background thread checks them. -/
structure StartEnv where
  w : World
  udevs : List GUdevDevice
  ctxAvail : Bool

/-- A configuration of the two-thread system: both program counters (the
pc of the thread is `none` until spawned), the shared started flag, and the shared
registry. -/
structure StartConfig where
  cpc : CallerPC
  tpc : Option ThreadPC
  started : Bool
  regs : List GstV4l2Device
deriving Repr

/-- The configuration at the top of `start()`: caller before the locked
block, thread not yet spawned, started flag false, registry empty. -/
def start_init_config : StartConfig :=
  ⟨.inStart, none, false, []⟩

/-- Small-step interleaving semantics of the start handshake.  `spawn` is the
locked block of the caller (create context and loop, launch the thread, reach the
condition-variable wait); `wake` is the caller leaving `g_cond_wait`, enabled
only when the started flag is true; the thread steps mirror `monitor_thread`:
the early exit broadcasting started with an empty registry, entering the
enumeration, processing one queried device, and broadcasting started after
the full pass. -/
inductive StartStep (env : StartEnv) : StartConfig → StartConfig → Prop
  | spawn (b : Bool) (r : List GstV4l2Device) :
      StartStep env ⟨.inStart, none, b, r⟩ ⟨.waiting, some .init, b, r⟩
  | wake (t : Option ThreadPC) (r : List GstV4l2Device) :
      StartStep env ⟨.waiting, t, true, r⟩ ⟨.returned, t, true, r⟩
  | tEarly (c : CallerPC) (b : Bool) (r : List GstV4l2Device)
      (h : env.ctxAvail = false) :
      StartStep env ⟨c, some .init, b, r⟩ ⟨c, some .doneEarly, true, r⟩
  | tBegin (c : CallerPC) (b : Bool) (r : List GstV4l2Device)
      (h : env.ctxAvail = true) :
      StartStep env ⟨c, some .init, b, r⟩ ⟨c, some (.enum 0), b, r⟩
  | tEnum (c : CallerPC) (b : Bool) (r r2 : List GstV4l2Device) (i : Nat)
      (hi : i < env.udevs.length)
      (h : process_udev env.w (env.udevs.get ⟨i, hi⟩) r = .ok r2) :
      StartStep env ⟨c, some (.enum i), b, r⟩ ⟨c, some (.enum (i + 1)), b, r2⟩
  | tEnumCrash (c : CallerPC) (b : Bool) (r : List GstV4l2Device) (i : Nat)
      (hi : i < env.udevs.length)
      (h : process_udev env.w (env.udevs.get ⟨i, hi⟩) r = .error ()) :
      StartStep env ⟨c, some (.enum i), b, r⟩ ⟨c, some .crashed, b, r⟩
  | tSignal (c : CallerPC) (b : Bool) (r : List GstV4l2Device) :
      StartStep env ⟨c, some (.enum env.udevs.length), b, r⟩ ⟨c, some .run, true, r⟩

/-- Reachability from the initial configuration of one start episode. -/
inductive StartReach (env : StartEnv) : StartConfig → Prop
  | init : StartReach env start_init_config
  | step {c c2 : StartConfig} : StartReach env c → StartStep env c c2 →
      StartReach env c2

/-- Balanced-release condition on the resource events of one probe: every
opened handle is closed, every acquired caps descriptor is unrefed, every
created object is destroyed. -/
def balancedEvents (evs : List ProbeEvent) : Prop :=
  evs.count .openDev = evs.count .closeDev ∧
  evs.count .capsRef = evs.count .capsUnref ∧
  evs.count .objNew = evs.count .objDestroy

/-- The record a probe produced, if any (abort and no-record both give
`none`). -/
def probe_ok_device (w : World) (p : String) : Option GstV4l2Device :=
  match (gst_v4l2_device_monitor_probe_device w p none).result with
  | .ok (some d) => some d
  | _ => none

/-- Conditions under which a probe of `path` yields a record: the path stats
as a character-special node, opens, reports exactly one of the capture and
output capability flags, and the caps descriptor for the selected mode is
present and non-empty. -/
def probe_success_conditions (w : World) (path : String) : Prop :=
  ∃ node, w path = some node ∧ node.isChr = true ∧ node.openOk = true ∧
    node.vcap.capCapture ≠ node.vcap.capOutput ∧
    ∃ caps, node.getCaps
        (if node.vcap.capOutput then .videoOutput else .videoCapture) = some caps ∧
      caps ≠ []

/-- Invariant of the start handshake maintained by every step: the thread is
unspawned only before the locked block of the caller; the started flag is
set only once the thread has finished the enumeration pass (registry equal
to the full scan result) or taken the early exit (registry empty); the
caller has returned only if the started flag is set. -/
def StartInv (env : StartEnv) (c : StartConfig) : Prop :=
  (c.cpc = .inStart → c.tpc = none) ∧
  (c.tpc = none → c.started = false ∧ c.regs = []) ∧
  (c.tpc = some .init → c.started = false ∧ c.regs = []) ∧
  (∀ i, c.tpc = some (.enum i) → c.started = false ∧ i ≤ env.udevs.length ∧
    monitor_thread_scan env.w (env.udevs.drop i) c.regs =
      monitor_thread_scan env.w env.udevs []) ∧
  (c.tpc = some .crashed → c.started = false) ∧
  (c.tpc = some .run → monitor_thread_scan env.w env.udevs [] = .ok c.regs) ∧
  (c.tpc = some .doneEarly → c.regs = []) ∧
  (c.cpc = .returned → c.started = true) ∧
  (c.started = true → c.tpc = some .run ∨ c.tpc = some .doneEarly)

/-- Concrete capture-only node with hardware name "WebCam X" and one raw
video format, used as a test input. -/
def webcam_node : DeviceNode :=
  ⟨true, true, ⟨true, false, "WebCam X"⟩,
    fun t => if t = .videoCapture then some ["video/x-raw"] else none⟩

/-- Concrete namespace holding `webcam_node` at `/dev/video3` and nothing
else. -/
def webcam_world : World :=
  fun p => if p = "/dev/video3" then some webcam_node else none

/-- The record probing `/dev/video3` in `webcam_world` produces. -/
def webcam_record : GstV4l2Device :=
  ⟨"/dev/video3", "WebCam X", ["video/x-raw"], "Video/Source", .source, "v4l2src", none⟩

/-- Concrete node reporting both capture and output capability. -/
def combo_node : DeviceNode :=
  ⟨true, true, ⟨true, true, "Mem2Mem"⟩, fun _ => some ["video/x-raw"]⟩

/-- Concrete namespace holding `combo_node` at `/dev/combo`. -/
def combo_world : World :=
  fun p => if p = "/dev/combo" then some combo_node else none

/-- Concrete udev descriptor whose `ID_V4L_VERSION` is 1. -/
def udev_v1 : GUdevDevice :=
  ⟨"/dev/video0", "/sys/devices/a", 1, none, none, none⟩

/-- Concrete version-2 udev descriptor used for remove events. -/
def udev_rm : GUdevDevice :=
  ⟨"/dev/video9", "/sys/devices/b", 2, none, none, none⟩

/-- A registry record carrying the sysfs path of `udev_rm`, as the hotplug
add path would have produced. -/
def dev_rm : GstV4l2Device :=
  { webcam_record with syspath := some "/sys/devices/b" }

/-- Concrete start environment: empty device namespace, empty udev query
result, context and loop attached. -/
def env0 : StartEnv :=
  ⟨fun _ => none, [], true⟩

/-- The monitor state right after a completed `start()` on an empty
namespace. -/
def started_state : MonitorState :=
  ⟨true, true, true, true, []⟩

/-- Claim C2: for every device node whose capability flags report both
capture and output capability, the probe returns no record, whatever the
other properties of the node: the combo device is dropped at the
`goto close` of the capability check. -/
theorem probe_combo_excluded (w : World) (path : String) (name : Option String)
    (node : DeviceNode) (hw : w path = some node)
    (hc : node.vcap.capCapture = true) (ho : node.vcap.capOutput = true) :
    (gst_v4l2_device_monitor_probe_device w path name).result = .ok none := by
  cases h1 : node.isChr <;> cases h2 : node.openOk <;>
    simp [gst_v4l2_device_monitor_probe_device, hw, h1, h2, hc, ho]

/-- Claim C9: on every exit path of the probe that returns (stat failure,
non-character node, open failure, combo exclusion, NULL or empty caps, and
success), the resource events are balanced: every opened handle is closed,
every acquired caps descriptor is released, every created object is
destroyed. -/
theorem probe_releases (w : World) (path : String) (name : Option String)
    (h : (gst_v4l2_device_monitor_probe_device w path name).result ≠ .error ()) :
    balancedEvents (gst_v4l2_device_monitor_probe_device w path name).events := by
  revert h
  cases hw : w path with
  | none => intro h; simp [gst_v4l2_device_monitor_probe_device, hw, balancedEvents]
  | some node =>
    cases h1 : node.isChr
    · intro h
      simp [gst_v4l2_device_monitor_probe_device, hw, h1, balancedEvents]
    cases h2 : node.openOk
    · intro h
      simp [gst_v4l2_device_monitor_probe_device, hw, h1, h2, balancedEvents]
    cases ho : node.vcap.capOutput
    · cases hcaps : node.getCaps .videoCapture with
      | none =>
        intro h
        simp [gst_v4l2_device_monitor_probe_device, hw, h1, h2, ho, hcaps, balancedEvents]
      | some caps =>
        cases caps with
        | nil =>
          intro h
          simp [gst_v4l2_device_monitor_probe_device, hw, h1, h2, ho, hcaps, balancedEvents]
        | cons a l =>
          cases hc : node.vcap.capCapture
          · intro h
            exfalso
            apply h
            simp [gst_v4l2_device_monitor_probe_device, hw, h1, h2, hc, ho, hcaps,
              gst_v4l2_device_new]
          · intro h
            simp [gst_v4l2_device_monitor_probe_device, hw, h1, h2, hc, ho, hcaps,
              gst_v4l2_device_new, balancedEvents]
    · cases hc : node.vcap.capCapture
      · cases hcaps : node.getCaps .videoOutput with
        | none =>
          intro h
          simp [gst_v4l2_device_monitor_probe_device, hw, h1, h2, hc, ho, hcaps, balancedEvents]
        | some caps =>
          cases caps with
          | nil =>
            intro h
            simp [gst_v4l2_device_monitor_probe_device, hw, h1, h2, hc, ho, hcaps, balancedEvents]
          | cons a l =>
            intro h
            simp [gst_v4l2_device_monitor_probe_device, hw, h1, h2, hc, ho, hcaps,
              gst_v4l2_device_new, balancedEvents]
      · intro h
        simp [gst_v4l2_device_monitor_probe_device, hw, h1, h2, hc, ho, balancedEvents]

/-- Claim C3: the probe returns a record iff the path stats as a
character-special node that opens successfully, reports exactly one of the
capture and output capability flags, and yields a non-empty caps
descriptor for the selected mode; every returned record has a non-empty
capability set and a classification that is Source or Sink; a path that is
not a character-special node is rejected without being opened. -/
theorem probe_success_iff (w : World) (path : String) (name : Option String) :
    ((∃ d, (gst_v4l2_device_monitor_probe_device w path name).result = .ok (some d)) ↔
      probe_success_conditions w path) ∧
    (∀ d, (gst_v4l2_device_monitor_probe_device w path name).result = .ok (some d) →
      d.caps ≠ [] ∧ (d.type = .source ∨ d.type = .sink)) ∧
    (∀ node, w path = some node → node.isChr = false →
      ProbeEvent.openDev ∉ (gst_v4l2_device_monitor_probe_device w path name).events) := by
  cases hw : w path with
  | none => simp [gst_v4l2_device_monitor_probe_device, hw, probe_success_conditions]
  | some node =>
    cases h1 : node.isChr
    · simp [gst_v4l2_device_monitor_probe_device, hw, h1, probe_success_conditions]
    cases h2 : node.openOk
    · simp [gst_v4l2_device_monitor_probe_device, hw, h1, h2, probe_success_conditions]
    cases ho : node.vcap.capOutput
    · cases hcaps : node.getCaps .videoCapture with
      | none =>
        simp [gst_v4l2_device_monitor_probe_device, hw, h1, h2, ho, hcaps,
          probe_success_conditions]
      | some caps =>
        cases caps with
        | nil =>
          simp [gst_v4l2_device_monitor_probe_device, hw, h1, h2, ho, hcaps,
            probe_success_conditions]
        | cons a l =>
          cases hc : node.vcap.capCapture
          · simp [gst_v4l2_device_monitor_probe_device, hw, h1, h2, hc, ho, hcaps,
              probe_success_conditions, gst_v4l2_device_new]
          · simp [gst_v4l2_device_monitor_probe_device, hw, h1, h2, hc, ho, hcaps,
              probe_success_conditions, gst_v4l2_device_new]
    · cases hc : node.vcap.capCapture
      · cases hcaps : node.getCaps .videoOutput with
        | none =>
          simp [gst_v4l2_device_monitor_probe_device, hw, h1, h2, hc, ho, hcaps,
            probe_success_conditions]
        | some caps =>
          cases caps with
          | nil =>
            simp [gst_v4l2_device_monitor_probe_device, hw, h1, h2, hc, ho, hcaps,
              probe_success_conditions]
          | cons a l =>
            simp [gst_v4l2_device_monitor_probe_device, hw, h1, h2, hc, ho, hcaps,
              probe_success_conditions, gst_v4l2_device_new]
      · simp [gst_v4l2_device_monitor_probe_device, hw, h1, h2, hc, ho,
          probe_success_conditions]

/-- Claim C8: every record a successful probe returns carries the
caller-supplied name when one is present and the hardware-reported card
name otherwise; and the static enumeration of a namespace holding one
capture-only node at index 3 with card name "WebCam X" yields exactly one
record, classified Source, displayed as "WebCam X". -/
theorem display_name_spec :
    (∀ (w : World) (path : String) (name : Option String) (node : DeviceNode)
      (d : GstV4l2Device), w path = some node →
      (gst_v4l2_device_monitor_probe_device w path name).result = .ok (some d) →
      d.display_name = (match name with | some n => n | none => node.vcap.card)) ∧
    gst_v4l2_device_monitor_probe webcam_world = .ok [webcam_record] := by
  constructor
  · intro w path name node d hw hres
    revert hres
    cases h1 : node.isChr
    · simp [gst_v4l2_device_monitor_probe_device, hw, h1]
    cases h2 : node.openOk
    · simp [gst_v4l2_device_monitor_probe_device, hw, h1, h2]
    cases ho : node.vcap.capOutput
    · cases hcaps : node.getCaps .videoCapture with
      | none => simp [gst_v4l2_device_monitor_probe_device, hw, h1, h2, ho, hcaps]
      | some caps =>
        cases caps with
        | nil => simp [gst_v4l2_device_monitor_probe_device, hw, h1, h2, ho, hcaps]
        | cons a l =>
          cases hc : node.vcap.capCapture
          · simp [gst_v4l2_device_monitor_probe_device, hw, h1, h2, hc, ho, hcaps,
              gst_v4l2_device_new]
          · simp [gst_v4l2_device_monitor_probe_device, hw, h1, h2, hc, ho, hcaps,
              gst_v4l2_device_new]
            intro hd
            rw [← hd]
    · cases hc : node.vcap.capCapture
      · cases hcaps : node.getCaps .videoOutput with
        | none => simp [gst_v4l2_device_monitor_probe_device, hw, h1, h2, hc, ho, hcaps]
        | some caps =>
          cases caps with
          | nil => simp [gst_v4l2_device_monitor_probe_device, hw, h1, h2, hc, ho, hcaps]
          | cons a l =>
            simp [gst_v4l2_device_monitor_probe_device, hw, h1, h2, hc, ho, hcaps,
              gst_v4l2_device_new]
            intro hd
            rw [← hd]
      · simp [gst_v4l2_device_monitor_probe_device, hw, h1, h2, hc, ho]
  · rfl

/-- The enumerator loop accumulates, in reverse, the records of every
candidate it probes, provided no probe aborts. -/
theorem probe_loop_eq (w : World) (paths : List String) (acc : List GstV4l2Device)
    (h : ∀ p ∈ paths, (gst_v4l2_device_monitor_probe_device w p none).result ≠ .error ()) :
    probe_loop w paths acc = .ok ((paths.filterMap (probe_ok_device w)).reverse ++ acc) := by
  induction paths generalizing acc with
  | nil => simp [probe_loop]
  | cons p rest ih =>
    have hp := h p (by simp)
    have hrest : ∀ q ∈ rest,
        (gst_v4l2_device_monitor_probe_device w q none).result ≠ .error () :=
      fun q hq => h q (by simp [hq])
    cases hres : (gst_v4l2_device_monitor_probe_device w p none).result with
    | error e => cases e; exact absurd hres hp
    | ok o =>
      cases o with
      | none =>
        rw [probe_loop, hres]
        simp [List.filterMap_cons, probe_ok_device, hres, ih _ hrest]
      | some d =>
        rw [probe_loop, hres]
        simp [List.filterMap_cons, probe_ok_device, hres, ih _ hrest]

/-- A probe of a path that does not stat returns no record. -/
theorem probe_empty_world (w : World) (p : String) (hw : w p = none) :
    (gst_v4l2_device_monitor_probe_device w p none).result = .ok none := by
  simp [gst_v4l2_device_monitor_probe_device, hw]

/-- Claim C6: when no candidate aborts, the static enumeration probes every
candidate of the two naming schemes crossed with indices 0 through 63 and
returns exactly the records the probes produced (in reverse scan order),
treating unreachable and nonexistent paths as silent omissions; on an empty
namespace it returns the empty list. -/
theorem enumerate_spec :
    (∀ w : World,
      (∀ p ∈ probe_candidates,
        (gst_v4l2_device_monitor_probe_device w p none).result ≠ .error ()) →
      gst_v4l2_device_monitor_probe w =
        .ok ((probe_candidates.filterMap (probe_ok_device w)).reverse)) ∧
    (∀ w : World, (∀ p, w p = none) → gst_v4l2_device_monitor_probe w = .ok []) := by
  constructor
  · intro w h
    rw [gst_v4l2_device_monitor_probe, probe_loop_eq w _ _ h]
    simp
  · intro w h
    rw [gst_v4l2_device_monitor_probe, probe_loop_eq]
    · simp only [List.append_nil]
      rw [List.filterMap_eq_nil_iff.mpr]
      · rfl
      · intro p hp
        simp [probe_ok_device, probe_empty_world w p (h p)]
    · intro p hp
      rw [probe_empty_world w p (h p)]
      simp

/-- Claim C5: the hotplug callback ignores, with no registry change and no
notification, every event whose `ID_V4L_VERSION` property differs from 2;
and the initial enumeration pass publishes nothing for a queried device
whose version property differs from 2: dropping it from the query result
leaves the pass unchanged. -/
theorem version_filter_spec :
    (∀ (w : World) (a : String) (udev : GUdevDevice) (regs : List GstV4l2Device),
      udev.id_v4l_version ≠ 2 → uevent_cb w a udev regs = .ok (regs, [])) ∧
    (∀ (w : World) (us1 : List GUdevDevice) (u : GUdevDevice) (us2 : List GUdevDevice)
      (regs : List GstV4l2Device), u.id_v4l_version ≠ 2 →
      monitor_thread_scan w (us1 ++ u :: us2) regs = monitor_thread_scan w (us1 ++ us2) regs) := by
  constructor
  · intro w a udev regs h
    simp [uevent_cb, h]
  · intro w us1 u us2 regs h
    induction us1 generalizing regs with
    | nil =>
      simp only [List.nil_append, monitor_thread_scan, process_udev, h, if_neg]
      simp [h]
    | cons v rest ih =>
      simp only [List.cons_append, monitor_thread_scan]
      cases hv : process_udev w v regs with
      | error e => rfl
      | ok regs2 => exact ih regs2

/-- The remove scan returns the first record whose sysfs identifier
matches, skipping non-matching records that carry identifiers. -/
theorem remove_scan_found (sys : String) (pre : List GstV4l2Device)
    (d : GstV4l2Device) (post : List GstV4l2Device)
    (hpre : ∀ e ∈ pre, e.syspath.isSome ∧ e.syspath ≠ some sys)
    (hd : d.syspath = some sys) :
    remove_scan sys (pre ++ d :: post) = .ok (some d) := by
  induction pre with
  | nil => simp [remove_scan, hd]
  | cons e rest ih =>
    have he := hpre e (by simp)
    obtain ⟨hsome, hne⟩ := he
    cases hs : e.syspath with
    | none => rw [hs] at hsome; simp at hsome
    | some s =>
      rw [hs] at hne
      have hsne : s ≠ sys := by intro hc; exact hne (by rw [hc])
      simp only [List.cons_append, remove_scan, hs, if_neg hsne]
      exact ih (fun q hq => hpre q (by simp [hq]))

/-- The remove scan returns no match on a registry of identified records
none of which matches. -/
theorem remove_scan_not_found (sys : String) (regs : List GstV4l2Device)
    (h : ∀ e ∈ regs, e.syspath.isSome ∧ e.syspath ≠ some sys) :
    remove_scan sys regs = .ok none := by
  induction regs with
  | nil => rfl
  | cons e rest ih =>
    obtain ⟨hsome, hne⟩ := h e (by simp)
    cases hs : e.syspath with
    | none => rw [hs] at hsome; simp at hsome
    | some s =>
      rw [hs] at hne
      have hsne : s ≠ sys := by intro hc; exact hne (by rw [hc])
      simp only [remove_scan, hs, if_neg hsne]
      exact ih (fun q hq => h q (by simp [hq]))

/-- Claim C1: a version-2 remove event whose sysfs identifier matches
exactly one record removes that record (the first match in scan order),
shrinking the registry to its pre-add size, and the emitted event order
releases the lock before issuing the remove notification; a remove event
matching no record leaves the registry unchanged. -/
theorem uevent_remove_spec (w : World) (udev : GUdevDevice)
    (h2 : udev.id_v4l_version = 2) :
    (∀ (pre : List GstV4l2Device) (d : GstV4l2Device) (post : List GstV4l2Device),
      (∀ e ∈ pre, e.syspath.isSome ∧ e.syspath ≠ some udev.sysfs_path) →
      d.syspath = some udev.sysfs_path →
      uevent_cb w "remove" udev (pre ++ d :: post) =
        .ok (pre ++ post, [.lock, .unlock, .notifyRemove d]) ∧
      (pre ++ post).length + 1 = (pre ++ d :: post).length) ∧
    (∀ regs : List GstV4l2Device,
      (∀ e ∈ regs, e.syspath.isSome ∧ e.syspath ≠ some udev.sysfs_path) →
      uevent_cb w "remove" udev regs = .ok (regs, [.lock, .unlock])) := by
  constructor
  · intro pre d post hpre hd
    have hdpre : d ∉ pre := by
      intro hmem
      exact (hpre d hmem).2 hd
    constructor
    · rw [uevent_cb]
      rw [if_neg (by simp [h2])]
      rw [if_neg (by decide)]
      rw [if_pos rfl]
      rw [remove_scan_found udev.sysfs_path pre d post hpre hd]
      show Except.ok (gst_device_monitor_device_remove (pre ++ d :: post) d, _) = _
      rw [gst_device_monitor_device_remove, List.erase_append_right _ hdpre]
      simp [List.erase_cons_head]
    · simp only [List.length_append, List.length_cons]
      omega
  · intro regs h
    rw [uevent_cb]
    rw [if_neg (by simp [h2])]
    rw [if_neg (by decide)]
    rw [if_pos rfl]
    rw [remove_scan_not_found udev.sysfs_path regs h]

/-- The remove scan never dereferences NULL on a registry whose records
all carry sysfs identifiers. -/
theorem remove_scan_safe (sys : String) (regs : List GstV4l2Device)
    (h : ∀ d ∈ regs, d.syspath.isSome) : remove_scan sys regs ≠ .error () := by
  induction regs with
  | nil => simp [remove_scan]
  | cons e rest ih =>
    have hsome := h e (by simp)
    cases hs : e.syspath with
    | none => rw [hs] at hsome; simp at hsome
    | some s =>
      simp only [remove_scan, hs]
      by_cases hc : s = sys
      · simp [hc]
      · simp only [if_neg hc]
        exact ih (fun q hq => h q (by simp [hq]))

/-- A record returned by the plain probe carries no sysfs identifier. -/
theorem probe_device_no_syspath (w : World) (path : String) (name : Option String)
    (d : GstV4l2Device)
    (hres : (gst_v4l2_device_monitor_probe_device w path name).result = .ok (some d)) :
    d.syspath = none := by
  revert hres
  cases hw : w path with
  | none => simp [gst_v4l2_device_monitor_probe_device, hw]
  | some node =>
    cases h1 : node.isChr
    · simp [gst_v4l2_device_monitor_probe_device, hw, h1]
    cases h2 : node.openOk
    · simp [gst_v4l2_device_monitor_probe_device, hw, h1, h2]
    cases ho : node.vcap.capOutput
    · cases hcaps : node.getCaps .videoCapture with
      | none => simp [gst_v4l2_device_monitor_probe_device, hw, h1, h2, ho, hcaps]
      | some caps =>
        cases caps with
        | nil => simp [gst_v4l2_device_monitor_probe_device, hw, h1, h2, ho, hcaps]
        | cons a l =>
          cases hc : node.vcap.capCapture
          · simp [gst_v4l2_device_monitor_probe_device, hw, h1, h2, hc, ho, hcaps,
              gst_v4l2_device_new]
          · simp [gst_v4l2_device_monitor_probe_device, hw, h1, h2, hc, ho, hcaps,
              gst_v4l2_device_new]
            intro hd
            rw [← hd]
    · cases hc : node.vcap.capCapture
      · cases hcaps : node.getCaps .videoOutput with
        | none => simp [gst_v4l2_device_monitor_probe_device, hw, h1, h2, hc, ho, hcaps]
        | some caps =>
          cases caps with
          | nil => simp [gst_v4l2_device_monitor_probe_device, hw, h1, h2, hc, ho, hcaps]
          | cons a l =>
            simp [gst_v4l2_device_monitor_probe_device, hw, h1, h2, hc, ho, hcaps,
              gst_v4l2_device_new]
            intro hd
            rw [← hd]
      · simp [gst_v4l2_device_monitor_probe_device, hw, h1, h2, hc, ho]

/-- The enumerator loop only ever accumulates records without sysfs
identifiers. -/
theorem probe_loop_no_syspath (w : World) (paths : List String)
    (acc : List GstV4l2Device) (hacc : ∀ d ∈ acc, d.syspath = none)
    (devs : List GstV4l2Device) (h : probe_loop w paths acc = .ok devs) :
    ∀ d ∈ devs, d.syspath = none := by
  induction paths generalizing acc with
  | nil =>
    simp only [probe_loop, Except.ok.injEq] at h
    rw [← h]
    exact hacc
  | cons p rest ih =>
    rw [probe_loop] at h
    revert h
    cases hres : (gst_v4l2_device_monitor_probe_device w p none).result with
    | error e => intro h; cases h
    | ok o =>
      cases o with
      | none => exact fun h => ih acc hacc h
      | some d =>
        intro h
        refine ih (d :: acc) ?_ h
        intro q hq
        rcases List.mem_cons.mp hq with hq | hq
        · rw [hq]; exact probe_device_no_syspath w p none d hres
        · exact hacc q hq

/-- Claim C10: the remove handler is well-defined on a registry whose
records all carry a sysfs identifier; records published by the static
enumeration path never carry one; and a version-2 remove event crashes
(NULL `strcmp`) on any registry whose scan reaches such a record. -/
theorem remove_null_syspath_spec :
    (∀ (w : World) (udev : GUdevDevice) (regs : List GstV4l2Device),
      (∀ d ∈ regs, d.syspath.isSome) → uevent_cb w "remove" udev regs ≠ .error ()) ∧
    (∀ (w : World) (devs : List GstV4l2Device),
      gst_v4l2_device_monitor_probe w = .ok devs → ∀ d ∈ devs, d.syspath = none) ∧
    (∀ (w : World) (udev : GUdevDevice) (d : GstV4l2Device) (rest : List GstV4l2Device),
      udev.id_v4l_version = 2 → d.syspath = none →
      uevent_cb w "remove" udev (d :: rest) = .error ()) := by
  refine ⟨?_, ?_, ?_⟩
  · intro w udev regs h
    by_cases h2 : udev.id_v4l_version = 2
    · rw [uevent_cb]
      rw [if_neg (by simp [h2])]
      rw [if_neg (by decide)]
      rw [if_pos rfl]
      cases hs : remove_scan udev.sysfs_path regs with
      | error e => cases e; exact absurd hs (remove_scan_safe udev.sysfs_path regs h)
      | ok o => cases o <;> simp
    · simp [uevent_cb, h2]
  · intro w devs h
    exact probe_loop_no_syspath w probe_candidates [] (by simp) devs h
  · intro w udev d rest h2 hd
    rw [uevent_cb]
    rw [if_neg (by simp [h2])]
    rw [if_neg (by decide)]
    rw [if_pos rfl]
    rw [remove_scan]
    rw [hd]

/-- Claim C7: stopping a started monitor yields exactly the observable
state of a freshly constructed, never-started monitor (handles cleared,
started flag false, no residual registry entries), so a subsequent start
behaves as a first start. -/
theorem stop_resets_spec (w : World) (udevs : List GUdevDevice) (s s2 : MonitorState)
    (h : gst_v4l2_device_monitor_start w udevs s = some s2) :
    gst_v4l2_device_monitor_stop s2 = fresh_monitor ∧
    (∀ (w2 : World) (udevs2 : List GUdevDevice),
      gst_v4l2_device_monitor_start w2 udevs2 (gst_v4l2_device_monitor_stop s2) =
        gst_v4l2_device_monitor_start w2 udevs2 fresh_monitor) := by
  rw [gst_v4l2_device_monitor_start] at h
  revert h
  by_cases hc : s.context = true
  · simp [hc]
  · simp only [hc, if_neg, Bool.false_eq_true, ite_false]
    cases hscan : monitor_thread_scan w udevs s.devices with
    | error e => intro h; cases h
    | ok regs =>
      intro h
      have h2 : s2 = ⟨true, true, true, true, regs⟩ := (Option.some_injective _ h).symm
      rw [h2]
      constructor
      · rfl
      · intro w2 udevs2; rfl

/-- The start-handshake invariant holds initially. -/
theorem start_inv_init (env : StartEnv) : StartInv env start_init_config := by
  refine ⟨?_, ?_, ?_, ?_, ?_, ?_, ?_, ?_, ?_⟩ <;> simp [start_init_config]

/-- The start-handshake invariant is preserved by every step. -/
theorem start_inv_step (env : StartEnv) (c c2 : StartConfig)
    (hinv : StartInv env c) (hstep : StartStep env c c2) : StartInv env c2 := by
  obtain ⟨i1, i2, i3, i4, i5, i6, i7, i8, i9⟩ := hinv
  cases hstep with
  | spawn b r =>
    obtain ⟨hb, hr⟩ := i2 rfl
    simp only at hb hr
    subst hb hr
    exact ⟨fun h => CallerPC.noConfusion h, fun h => Option.noConfusion h,
      fun _ => ⟨rfl, rfl⟩, fun j hj => by simp at hj, fun h => by simp at h,
      fun h => by simp at h, fun h => by simp at h,
      fun h => CallerPC.noConfusion h, fun h => Bool.noConfusion h⟩
  | wake t r =>
    have ht := i9 rfl
    simp only at ht
    refine ⟨fun h => CallerPC.noConfusion h, ?_, ?_, ?_, ?_,
      fun h => i6 h, fun h => i7 h, fun _ => rfl, fun _ => ht⟩
    · intro h
      rcases ht with h2 | h2 <;> (rw [h2] at h; exact Option.noConfusion h)
    · intro h
      rcases ht with h2 | h2 <;> (rw [h2] at h; simp at h)
    · intro j hj
      rcases ht with h2 | h2 <;> (rw [h2] at hj; simp at hj)
    · intro h
      rcases ht with h2 | h2 <;> (rw [h2] at h; simp at h)
  | tEarly cp b r h =>
    obtain ⟨hb, hr⟩ := i3 rfl
    simp only at hb hr
    subst hb hr
    have hcp : cp ≠ .inStart := fun hcc => Option.noConfusion (i1 hcc)
    exact ⟨fun hc => absurd hc hcp, fun hc => Option.noConfusion hc,
      fun hc => by simp at hc, fun j hj => by simp at hj, fun hc => by simp at hc,
      fun hc => by simp at hc, fun _ => rfl, fun _ => rfl, fun _ => Or.inr rfl⟩
  | tBegin cp b r h =>
    obtain ⟨hb, hr⟩ := i3 rfl
    simp only at hb hr
    subst hb hr
    have hcp : cp ≠ .inStart := fun hcc => Option.noConfusion (i1 hcc)
    refine ⟨fun hc => absurd hc hcp, fun hc => Option.noConfusion hc,
      fun hc => by simp at hc, ?_, fun hc => by simp at hc,
      fun hc => by simp at hc, fun hc => by simp at hc,
      fun hc => Bool.noConfusion (i8 hc), fun hc => Bool.noConfusion hc⟩
    intro j hj
    simp only [Option.some.injEq, ThreadPC.enum.injEq] at hj
    subst hj
    exact ⟨rfl, Nat.zero_le _, by rw [List.drop_zero]⟩
  | tEnum cp b r r2 i hi hp =>
    obtain ⟨hb, hle, hscan⟩ := i4 i rfl
    simp only at hb hscan
    subst hb
    have hcp : cp ≠ .inStart := fun hcc => Option.noConfusion (i1 hcc)
    have hdrop : env.udevs.drop i = env.udevs.get ⟨i, hi⟩ :: env.udevs.drop (i + 1) := by
      rw [List.drop_eq_getElem_cons hi]
      rfl
    have hscan2 : monitor_thread_scan env.w (env.udevs.drop (i + 1)) r2 =
        monitor_thread_scan env.w env.udevs [] := by
      rw [← hscan, hdrop, monitor_thread_scan, hp]
    refine ⟨fun hc => absurd hc hcp, fun hc => Option.noConfusion hc,
      fun hc => by simp at hc, ?_, fun hc => by simp at hc,
      fun hc => by simp at hc, fun hc => by simp at hc,
      fun hc => Bool.noConfusion (i8 hc), fun hc => Bool.noConfusion hc⟩
    intro j hj
    simp only [Option.some.injEq, ThreadPC.enum.injEq] at hj
    subst hj
    exact ⟨rfl, by omega, hscan2⟩
  | tEnumCrash cp b r i hi hp =>
    obtain ⟨hb, hle, hscan⟩ := i4 i rfl
    simp only at hb
    subst hb
    have hcp : cp ≠ .inStart := fun hcc => Option.noConfusion (i1 hcc)
    exact ⟨fun hc => absurd hc hcp, fun hc => Option.noConfusion hc,
      fun hc => by simp at hc, fun j hj => by simp at hj, fun _ => rfl,
      fun hc => by simp at hc, fun hc => by simp at hc,
      fun hc => Bool.noConfusion (i8 hc), fun hc => Bool.noConfusion hc⟩
  | tSignal cp b r =>
    obtain ⟨hb, hle, hscan⟩ := i4 env.udevs.length rfl
    simp only at hb hscan
    subst hb
    have hcp : cp ≠ .inStart := fun hcc => Option.noConfusion (i1 hcc)
    have hok : monitor_thread_scan env.w env.udevs [] = .ok r := by
      rw [← hscan]
      simp [monitor_thread_scan]
    exact ⟨fun hc => absurd hc hcp, fun hc => Option.noConfusion hc,
      fun hc => by simp at hc, fun j hj => by simp at hj, fun hc => by simp at hc,
      fun _ => hok, fun hc => by simp at hc, fun _ => rfl, fun _ => Or.inl rfl⟩

/-- The start-handshake invariant holds in every reachable
configuration. -/
theorem start_inv_reach (env : StartEnv) (c : StartConfig)
    (h : StartReach env c) : StartInv env c := by
  induction h with
  | init => exact start_inv_init env
  | step hr hs ih => exact start_inv_step env _ _ ih hs

/-- Claim C4: in every reachable configuration of the start handshake in
which `start()` has returned to the caller, the background thread has
signalled started, which it did only after completing the full initial
enumeration pass (the registry then equals the full scan result, possibly
empty) or after the early exit on a detached context (empty registry). -/
theorem start_returns_after_scan (env : StartEnv) (c : StartConfig)
    (hreach : StartReach env c) (hret : c.cpc = .returned) :
    (c.tpc = some .run ∧ monitor_thread_scan env.w env.udevs [] = .ok c.regs) ∨
    (c.tpc = some .doneEarly ∧ c.regs = []) := by
  obtain ⟨i1, i2, i3, i4, i5, i6, i7, i8, i9⟩ := start_inv_reach env c hreach
  have hst := i8 hret
  rcases i9 hst with hrun | hearly
  · exact Or.inl ⟨hrun, i6 hrun⟩
  · exact Or.inr ⟨hearly, i7 hearly⟩

/-- Probing `/dev/video3` in `webcam_world` evaluates to `webcam_record`. -/
theorem webcam_probe_eval :
    (gst_v4l2_device_monitor_probe_device webcam_world "/dev/video3" none).result =
      .ok (some webcam_record) := rfl

/-- Witness for claim C2 at the concrete combo node. -/
theorem probe_combo_excluded_witness :
    (gst_v4l2_device_monitor_probe_device combo_world "/dev/combo" none).result = .ok none :=
  probe_combo_excluded combo_world "/dev/combo" none combo_node rfl rfl rfl

/-- Witness for claim C9 at the concrete webcam node. -/
theorem probe_releases_witness :
    balancedEvents (gst_v4l2_device_monitor_probe_device webcam_world "/dev/video3" none).events :=
  probe_releases webcam_world "/dev/video3" none (by rw [webcam_probe_eval]; simp)

/-- Witness for claim C3 at the concrete webcam record. -/
theorem probe_success_iff_witness :
    webcam_record.caps ≠ [] ∧
      (webcam_record.type = .source ∨ webcam_record.type = .sink) :=
  (probe_success_iff webcam_world "/dev/video3" none).2.1 webcam_record webcam_probe_eval

/-- Witness for claim C8 at the concrete webcam record. -/
theorem display_name_spec_witness :
    webcam_record.display_name = webcam_node.vcap.card :=
  display_name_spec.1 webcam_world "/dev/video3" none webcam_node webcam_record rfl
    webcam_probe_eval

/-- Witness for claim C6 at the empty namespace. -/
theorem enumerate_spec_witness :
    gst_v4l2_device_monitor_probe (fun _ => none) = .ok [] :=
  enumerate_spec.2 (fun _ => none) (fun _ => rfl)

/-- Witness for claim C5 at a concrete version-1 event. -/
theorem version_filter_spec_witness :
    uevent_cb (fun _ => none) "add" udev_v1 [] = .ok ([], []) :=
  version_filter_spec.1 (fun _ => none) "add" udev_v1 [] (by decide)

/-- Witness for claim C1 at a concrete one-record registry. -/
theorem uevent_remove_spec_witness :
    uevent_cb (fun _ => none) "remove" udev_rm [dev_rm] =
      .ok ([], [.lock, .unlock, .notifyRemove dev_rm]) :=
  ((uevent_remove_spec (fun _ => none) udev_rm rfl).1 [] dev_rm [] (by simp) rfl).1

/-- Witness for claim C10 at a concrete statically-enumerated record. -/
theorem remove_null_syspath_spec_witness :
    uevent_cb (fun _ => none) "remove" udev_rm [webcam_record] = .error () :=
  remove_null_syspath_spec.2.2 (fun _ => none) udev_rm webcam_record [] rfl rfl

/-- Witness for claim C7 at a concrete started monitor. -/
theorem stop_resets_spec_witness :
    gst_v4l2_device_monitor_stop started_state = fresh_monitor :=
  (stop_resets_spec (fun _ => none) [] fresh_monitor started_state rfl).1

/-- Witness for claim C4: a concrete run of the handshake on an empty udev
query, reaching the returned caller through the full (zero-device)
enumeration pass. -/
theorem start_returns_after_scan_witness :
    ((⟨.returned, some .run, true, []⟩ : StartConfig).tpc = some .run ∧
      monitor_thread_scan env0.w env0.udevs [] =
        .ok (⟨.returned, some .run, true, []⟩ : StartConfig).regs) ∨
    ((⟨.returned, some .run, true, []⟩ : StartConfig).tpc = some .doneEarly ∧
      (⟨.returned, some .run, true, []⟩ : StartConfig).regs = []) :=
  start_returns_after_scan env0 ⟨.returned, some .run, true, []⟩
    (StartReach.step
      (StartReach.step
        (StartReach.step
          (StartReach.step StartReach.init (StartStep.spawn false []))
          (StartStep.tBegin .waiting false [] rfl))
        (StartStep.tSignal .waiting false []))
      (StartStep.wake (some .run) []))
    rfl
